import Mathlib

/-!
Verification of the MediMetrics inference service
(`apps/inference/src/server/main.py`): a FastAPI app that admits inference
jobs into a Redis-backed store, answers status queries, cancels jobs, and
sends HMAC-SHA256-signed webhook callbacks.

The embedding is executable: JSON payloads are a concrete inductive with a
`json.dumps`-style serializer, SHA-256 and HMAC are implemented over `Nat`
bytes exactly as the standard specifies, and each HTTP handler is a pure
function from a server state to a result and a new server state.
-/

/-- JSON values, the shape of the dict payloads the service stores and sends.
Objects keep insertion order, as Python dicts do. -/
inductive JVal where
  | null : JVal
  | bool (b : Bool) : JVal
  | num (n : Int) : JVal
  | str (s : String) : JVal
  | arr (elems : List JVal) : JVal
  | obj (fields : List (String × JVal)) : JVal

/-- Escape of one character inside a JSON string literal: quote and backslash
are escaped, other characters pass through (ASCII payloads need no more). -/
def escChar (c : Char) : List Char :=
  if c = '"' then ['\\', '"']
  else if c = '\\' then ['\\', '\\']
  else [c]

/-- A JSON string literal: the escaped characters between two quotes. -/
def quoteStr (s : String) : String :=
  "\"" ++ String.mk (s.data.flatMap escChar) ++ "\""

/-- Opening brace of a JSON object. -/
def lbrace : String := String.mk [Char.ofNat 123]

/-- Closing brace of a JSON object. -/
def rbrace : String := String.mk [Char.ofNat 125]

mutual

/-- Serialization of a JSON value the way Python's `json.dumps` renders it
with default separators: item separator comma-space, key separator
colon-space, insertion order preserved. -/
def json_dumps : JVal → String
  | .null => "null"
  | .bool true => "true"
  | .bool false => "false"
  | .num n => toString n
  | .str s => quoteStr s
  | .arr xs => "[" ++ dumpsList xs ++ "]"
  | .obj kvs => lbrace ++ dumpsFields kvs ++ rbrace

/-- Comma-space separated serializations of array elements. -/
def dumpsList : List JVal → String
  | [] => ""
  | [x] => json_dumps x
  | x :: y :: rest => json_dumps x ++ ", " ++ dumpsList (y :: rest)

/-- Comma-space separated `"key": value` members of an object. -/
def dumpsFields : List (String × JVal) → String
  | [] => ""
  | [kv] => quoteStr kv.1 ++ ": " ++ json_dumps kv.2
  | kv :: kv2 :: rest =>
      quoteStr kv.1 ++ ": " ++ json_dumps kv.2 ++ ", " ++ dumpsFields (kv2 :: rest)

end

/-- Field lookup in a JSON object (first match, as in a Python dict);
`none` on non-objects and missing keys. -/
def jsonLookup (key : String) : JVal → Option JVal
  | .obj kvs => (kvs.find? (fun kv => kv.1 == key)).map (fun kv => kv.2)
  | _ => none

/-!
SHA-256 over byte lists (bytes are `Nat` values below 256, words `Nat`
values below 2^32, reduction made explicit with `% 4294967296`), as
`hashlib.sha256` computes it, followed by HMAC as the `hmac` module builds
it from the hash.
-/

/-- Reduction of a word to 32 bits. -/
def w32 (n : Nat) : Nat := n % 4294967296

/-- Right rotation of a 32-bit word by `b` bits. -/
def rotr (b n : Nat) : Nat := w32 ((n >>> b) ||| (n <<< (32 - b)))

/-- The choice function of the SHA-256 round. -/
def shaCh (e f g : Nat) : Nat := (e &&& f) ^^^ ((e ^^^ 4294967295) &&& g)

/-- The majority function of the SHA-256 round. -/
def shaMaj (a b c : Nat) : Nat := (a &&& b) ^^^ (a &&& c) ^^^ (b &&& c)

/-- Big sigma-0 of the SHA-256 round. -/
def bigSigma0 (a : Nat) : Nat := rotr 2 a ^^^ rotr 13 a ^^^ rotr 22 a

/-- Big sigma-1 of the SHA-256 round. -/
def bigSigma1 (e : Nat) : Nat := rotr 6 e ^^^ rotr 11 e ^^^ rotr 25 e

/-- Small sigma-0 of the message schedule. -/
def smallSigma0 (x : Nat) : Nat := rotr 7 x ^^^ rotr 18 x ^^^ (x >>> 3)

/-- Small sigma-1 of the message schedule. -/
def smallSigma1 (x : Nat) : Nat := rotr 17 x ^^^ rotr 19 x ^^^ (x >>> 10)

/-- The 64 SHA-256 round constants of FIPS 180-4 (the fractional parts of
the cube roots of the first 64 primes), written in decimal. -/
def shaK : List Nat :=
  [1116352408, 1899447441, 3049323471, 3921009573, 961987163,
   1508970993, 2453635748, 2870763221, 3624381080, 310598401,
   607225278, 1426881987, 1925078388, 2162078206, 2614888103,
   3248222580, 3835390401, 4022224774, 264347078, 604807628,
   770255983, 1249150122, 1555081692, 1996064986, 2554220882,
   2821834349, 2952996808, 3210313671, 3336571891, 3584528711,
   113926993, 338241895, 666307205, 773529912, 1294757372,
   1396182291, 1695183700, 1986661051, 2177026350, 2456956037,
   2730485921, 2820302411, 3259730800, 3345764771, 3516065817,
   3600352804, 4094571909, 275423344, 430227734, 506948616,
   659060556, 883997877, 958139571, 1322822218, 1537002063,
   1747873779, 1955562222, 2024104815, 2227730452, 2361852424,
   2428436474, 2756734187, 3204031479, 3329325298]

/-- The eight 32-bit chaining words of a SHA-256 state. -/
structure Hash8 where
  a : Nat
  b : Nat
  c : Nat
  d : Nat
  e : Nat
  f : Nat
  g : Nat
  h : Nat

/-- The SHA-256 initial hash value of FIPS 180-4 (the fractional parts of
the square roots of the first 8 primes), written in decimal. -/
def shaH0 : Hash8 :=
  ⟨1779033703, 3144134277, 1013904242, 2773480762,
   1359893119, 2600822924, 528734635, 1541459225⟩

/-- Four big-endian bytes packed into a word, sixteen words per 64-byte
block. -/
def toWords : List Nat → List Nat
  | b0 :: b1 :: b2 :: b3 :: rest =>
      (((b0 * 256 + b1) * 256 + b2) * 256 + b3) :: toWords rest
  | _ => []

/-- The message schedule: the 16 block words extended to 64. -/
def extendW (w16 : List Nat) : List Nat :=
  (List.range 48).foldl (fun w i =>
    let j := i + 16
    w ++ [w32 (w.getD (j - 16) 0 + smallSigma0 (w.getD (j - 15) 0) +
               w.getD (j - 7) 0 + smallSigma1 (w.getD (j - 2) 0))]) w16

/-- One SHA-256 round on the working variables, fed the round constant
paired with the schedule word. -/
def shaRound (st : Hash8) (kw : Nat × Nat) : Hash8 :=
  let t1 := w32 (st.h + bigSigma1 st.e + shaCh st.e st.f st.g + kw.1 + kw.2)
  let t2 := w32 (bigSigma0 st.a + shaMaj st.a st.b st.c)
  ⟨w32 (t1 + t2), st.a, st.b, st.c, w32 (st.d + t1), st.e, st.f, st.g⟩

/-- The SHA-256 compression function on one 64-byte block. -/
def shaCompress (hs : Hash8) (block : List Nat) : Hash8 :=
  let st := (shaK.zip (extendW (toWords block))).foldl shaRound hs
  ⟨w32 (hs.a + st.a), w32 (hs.b + st.b), w32 (hs.c + st.c), w32 (hs.d + st.d),
   w32 (hs.e + st.e), w32 (hs.f + st.f), w32 (hs.g + st.g), w32 (hs.h + st.h)⟩

/-- Eight big-endian bytes of a 64-bit length field. -/
def len8Bytes (n : Nat) : List Nat :=
  [(n >>> 56) % 256, (n >>> 48) % 256, (n >>> 40) % 256, (n >>> 32) % 256,
   (n >>> 24) % 256, (n >>> 16) % 256, (n >>> 8) % 256, n % 256]

/-- SHA-256 padding: a 0x80 byte, zeros to 56 mod 64, and the bit length in
eight big-endian bytes. -/
def padMsg (msg : List Nat) : List Nat :=
  msg ++ [128] ++ List.replicate ((119 - msg.length % 64) % 64) 0 ++
    len8Bytes (msg.length * 8)

/-- Fuel-driven splitter behind `chunks64`: each step consumes at least one
byte, so fuel equal to the list length is always enough. -/
def chunks64Go : Nat → List Nat → List (List Nat)
  | _, [] => []
  | 0, _ :: _ => []
  | fuel + 1, b :: rest => (b :: rest.take 63) :: chunks64Go fuel (rest.drop 63)

/-- A byte list split into 64-byte blocks. -/
def chunks64 (l : List Nat) : List (List Nat) := chunks64Go l.length l

/-- The SHA-256 chaining state after absorbing a whole padded message. -/
def sha256Hash (msg : List Nat) : Hash8 :=
  (chunks64 (padMsg msg)).foldl shaCompress shaH0

/-- The four big-endian bytes of one 32-bit word. -/
def wordBytes (w : Nat) : List Nat :=
  [(w >>> 24) % 256, (w >>> 16) % 256, (w >>> 8) % 256, w % 256]

/-- The 32 digest bytes of a SHA-256 state. -/
def digestBytes (hs : Hash8) : List Nat :=
  wordBytes hs.a ++ wordBytes hs.b ++ wordBytes hs.c ++ wordBytes hs.d ++
  wordBytes hs.e ++ wordBytes hs.f ++ wordBytes hs.g ++ wordBytes hs.h

/-- SHA-256 of a byte list, as the 32 digest bytes. -/
def sha256Bytes (msg : List Nat) : List Nat := digestBytes (sha256Hash msg)

/-- One hexadecimal digit. -/
def hexChar (n : Nat) : Char :=
  if n < 10 then Char.ofNat (48 + n) else Char.ofNat (87 + n)

/-- Lowercase hex rendering of a byte list, as `hexdigest` returns it. -/
def bytesHex (bs : List Nat) : String :=
  String.mk (bs.flatMap (fun b => [hexChar (b / 16 % 16), hexChar (b % 16)]))

/-- The HMAC-SHA256 chaining state: the key hashed down or zero-padded to the
64-byte block size, inner hash over the ipad-masked key and the message,
outer hash over the opad-masked key and the inner digest. -/
def hmacHash (key msg : List Nat) : Hash8 :=
  let k0 := if 64 < key.length then sha256Bytes key else key
  let kp := k0 ++ List.replicate (64 - k0.length) 0
  sha256Hash ((kp.map (fun b => b ^^^ 92)) ++
    sha256Bytes ((kp.map (fun b => b ^^^ 54)) ++ msg))

/-- HMAC-SHA256 digest bytes. -/
def hmacSha256 (key msg : List Nat) : List Nat := digestBytes (hmacHash key msg)

/-- UTF-8 encoding of one code point. -/
def utf8Bytes (n : Nat) : List Nat :=
  if n < 128 then [n]
  else if n < 2048 then [192 + n / 64, 128 + n % 64]
  else if n < 65536 then [224 + n / 4096, 128 + n / 64 % 64, 128 + n % 64]
  else [240 + n / 262144, 128 + n / 4096 % 64, 128 + n / 64 % 64, 128 + n % 64]

/-- UTF-8 bytes of a string, as Python's `str.encode()` yields them. -/
def strBytes (s : String) : List Nat :=
  s.data.flatMap (fun c => utf8Bytes c.toNat)

/-!
The inference service itself. Environment-derived configuration, the
request body, the Redis-backed job store (`setex`/`get`/`delete` on keys
`job:{job_id}`), and the three job endpoints plus the webhook pair, each a
pure function threading an explicit `ServerState`.
-/

/-- Configuration read from the environment: `API_KEY` (default empty, which
disables the key check), `WEBHOOK_HMAC_SECRET` (default "secret"), and
`MAX_QUEUE_SIZE` (default 1000). -/
structure Config where
  api_key : String
  webhook_hmac_secret : String
  max_queue_size : Nat

/-- The configuration the environment defaults produce. -/
def defaultConfig : Config := ⟨"", "secret", 1000⟩

/-- The `InferenceRequest` body of `POST /v1/jobs`. -/
structure InferenceRequest where
  job_id : String
  study_id : String
  model : String
  model_version : String
  priority : String
  parameters : List (String × JVal)
  images : List JVal
  callback_url : Option String

/-- An `HTTPException`: status code and detail string. -/
structure HttpError where
  status_code : Nat
  detail : String
deriving DecidableEq

/-- One Redis value together with the time-to-live `setex` attached to it. -/
structure RedisEntry where
  ttl : Nat
  value : JVal

/-- The mutable state the handlers touch: the Redis store, the external
queue depth (`inference_queue.count`, owned by the RQ queue), the request
counter and queue-size gauge metrics, and the webhook posts handed to
background tasks, in order, as (url, payload) pairs. -/
structure ServerState where
  store : List (String × RedisEntry)
  queue_count : Nat
  request_count : Nat
  queue_gauge : Nat
  webhooks : List (String × JVal)

/-- Redis `GET`: the entry stored under a key. -/
def storeGet (st : List (String × RedisEntry)) (k : String) : Option RedisEntry :=
  (st.find? (fun p => p.1 == k)).map (fun p => p.2)

/-- Redis `SETEX`: bind a key to a value with a fresh time-to-live,
replacing any previous binding. -/
def storeSet (st : List (String × RedisEntry)) (k : String) (e : RedisEntry) :
    List (String × RedisEntry) :=
  (k, e) :: st.filter (fun p => p.1 != k)

/-- Redis `DELETE`: drop every binding of a key. -/
def storeDel (st : List (String × RedisEntry)) (k : String) :
    List (String × RedisEntry) :=
  st.filter (fun p => p.1 != k)

/-- The count of entries stored under a key. -/
def keyCount (st : List (String × RedisEntry)) (k : String) : Nat :=
  (st.filter (fun p => p.1 == k)).length

/-- The JSON object `enqueue_job` stores under `job:{job_id}`: status
QUEUED, progress 0, the study id and the model name. -/
def stored_job_value (req : InferenceRequest) : JVal :=
  .obj [("status", .str "QUEUED"), ("progress", .num 0),
        ("study_id", .str req.study_id), ("model", .str req.model)]

/-- The payload of the initial webhook `enqueue_job` schedules when a
callback URL is present. -/
def webhook_payload (req : InferenceRequest) : JVal :=
  .obj [("job_id", .str req.job_id), ("status", .str "QUEUED"),
        ("progress", .num 0)]

/-- The per-model base processing times of the ETA estimator. -/
def base_times : List (String × Nat) :=
  [("densenet121_chex", 30), ("unet_segmentation", 45), ("ensemble", 60)]

/-- The base processing time of a model: `base_times.get(model, 30)`. -/
def base_time (model : String) : Nat :=
  ((base_times.find? (fun p => p.1 == model)).map (fun p => p.2)).getD 30

/-- Estimated processing time in seconds: the model's base time (default 30
for models absent from the table) plus 5 seconds per image. -/
def estimate_processing_time (model : String) (image_count : Nat) : Nat :=
  let per_image_time := 5
  let base := base_time model
  base + image_count * per_image_time

/-- The success body of `POST /v1/jobs`. -/
structure EnqueueResponse where
  job_id : String
  status : String
  position : Nat
  estimated_time : Nat
deriving DecidableEq

/-- Handler of `POST /v1/jobs`: reject on a configured-but-wrong API key
(401) or a queue count above `MAX_QUEUE_SIZE` (503); otherwise store the
job record with a 3600-second time-to-live, bump the metrics, schedule the
initial webhook when a callback URL is present, and answer QUEUED with
position 1 and the ETA estimate. -/
def enqueue_job (cfg : Config) (x_api_key : Option String)
    (req : InferenceRequest) (s : ServerState) :
    Except HttpError EnqueueResponse × ServerState :=
  if cfg.api_key ≠ "" ∧ x_api_key ≠ some cfg.api_key then
    (.error ⟨401, "Invalid API key"⟩, s)
  else if cfg.max_queue_size < s.queue_count then
    (.error ⟨503, "Queue is full, please try again later"⟩, s)
  else
    let store1 := storeSet s.store ("job:" ++ req.job_id)
      ⟨3600, stored_job_value req⟩
    let webhooks1 :=
      match req.callback_url with
      | some url => s.webhooks ++ [(url, webhook_payload req)]
      | none => s.webhooks
    (.ok ⟨req.job_id, "QUEUED", 1,
       estimate_processing_time req.model req.images.length⟩,
     ⟨store1, s.queue_count, s.request_count + 1, s.queue_count, webhooks1⟩)

/-- Handler of `GET /v1/jobs/{job_id}`: the stored JSON object when the key
exists, 404 otherwise. -/
def get_job_status (job_id : String) (s : ServerState) :
    Except HttpError JVal × ServerState :=
  match storeGet s.store ("job:" ++ job_id) with
  | some e => (.ok e.value, s)
  | none => (.error ⟨404, "Job not found"⟩, s)

/-- Handler of `DELETE /v1/jobs/{job_id}`: delete the key from Redis
unconditionally and report success. -/
def cancel_job (job_id : String) (s : ServerState) :
    Except HttpError String × ServerState :=
  (.ok "Job cancelled successfully",
   ⟨storeDel s.store ("job:" ++ job_id), s.queue_count, s.request_count,
    s.queue_gauge, s.webhooks⟩)

/-- The signature `send_webhook` attaches: HMAC-SHA256 hexdigest of the
`json.dumps`-serialized payload under the shared secret. -/
def webhook_signature (secret : String) (payload : JVal) : String :=
  bytesHex (hmacSha256 (strBytes secret) (strBytes (json_dumps payload)))

/-- An outgoing webhook POST: target URL, JSON payload, and the
`X-Signature` header. -/
structure WebhookRequest where
  url : String
  payload : JVal
  x_signature : String

/-- The webhook notifier: the payload is posted to the URL with its
signature in the `X-Signature` header. -/
def send_webhook (secret url : String) (payload : JVal) : WebhookRequest :=
  ⟨url, payload, webhook_signature secret payload⟩

/-- Handler of `POST /v1/webhook`: when a secret is configured, recompute
the signature over the re-serialized payload and reject (401) unless the
header matches; acknowledge otherwise. -/
def receive_webhook (secret : String) (payload : JVal)
    (x_signature : Option String) : Except HttpError JVal :=
  if secret ≠ "" then
    if x_signature.getD "" = webhook_signature secret payload then
      .ok (.obj [("status", .str "received")])
    else
      .error ⟨401, "Invalid signature"⟩
  else
    .ok (.obj [("status", .str "received")])

/-- One request to the job endpoints, for reasoning over whole runs of the
service. -/
inductive Op where
  | submit (cfg : Config) (x_api_key : Option String) (req : InferenceRequest)
  | query (job_id : String)
  | cancel (job_id : String)

/-- The state after one request (response discarded). -/
def applyOp (s : ServerState) : Op → ServerState
  | .submit cfg k req => (enqueue_job cfg k req s).2
  | .query j => (get_job_status j s).2
  | .cancel j => (cancel_job j s).2

/-- The state after a sequence of requests. -/
def runOps (s : ServerState) (ops : List Op) : ServerState := ops.foldl applyOp s

/-- Every record in the store carries status QUEUED and progress 0. -/
def storeInvariant (st : List (String × RedisEntry)) : Prop :=
  ∀ p ∈ st, jsonLookup "status" p.2.value = some (.str "QUEUED") ∧
    jsonLookup "progress" p.2.value = some (.num 0)

/-- A server state with an empty store and given external queue depth. -/
def initState (queue_count : Nat) : ServerState := ⟨[], queue_count, 0, 0, []⟩

/-!
Remaining definitions: boundedness of hash states (the digest words stay
below 2^32, which makes the signature space finite), probe payloads for the
tamper-detection question, the tamper-detection property itself as stated
by the spec, and concrete requests used as test inputs.
-/

/-- Every chaining word of a hash state is below 2^32. -/
def Hash8Bounded (hs : Hash8) : Prop :=
  hs.a < 4294967296 ∧ hs.b < 4294967296 ∧ hs.c < 4294967296 ∧
  hs.d < 4294967296 ∧ hs.e < 4294967296 ∧ hs.f < 4294967296 ∧
  hs.g < 4294967296 ∧ hs.h < 4294967296

/-- The eight chaining words packed into a finite type; on bounded states
this loses nothing. -/
def hashTuple (hs : Hash8) :
    Fin 4294967296 × Fin 4294967296 × Fin 4294967296 × Fin 4294967296 ×
    Fin 4294967296 × Fin 4294967296 × Fin 4294967296 × Fin 4294967296 :=
  (⟨hs.a % 4294967296, Nat.mod_lt _ (by omega)⟩,
   ⟨hs.b % 4294967296, Nat.mod_lt _ (by omega)⟩,
   ⟨hs.c % 4294967296, Nat.mod_lt _ (by omega)⟩,
   ⟨hs.d % 4294967296, Nat.mod_lt _ (by omega)⟩,
   ⟨hs.e % 4294967296, Nat.mod_lt _ (by omega)⟩,
   ⟨hs.f % 4294967296, Nat.mod_lt _ (by omega)⟩,
   ⟨hs.g % 4294967296, Nat.mod_lt _ (by omega)⟩,
   ⟨hs.h % 4294967296, Nat.mod_lt _ (by omega)⟩)

/-- A family of pairwise distinct payloads: the string of `n` letters a. -/
def tamperProbe (n : Nat) : JVal := .str (String.mk (List.replicate n 'a'))

/-- The tamper-detection property as the claim states it, at the default
shared secret: any payload whose serialization differs from the signed
one's fails verification against the original signature. -/
def tamper_detection_claim : Prop :=
  ∀ p q : JVal, json_dumps p ≠ json_dumps q →
    receive_webhook "secret" q (some (webhook_signature "secret" p)) =
      .error ⟨401, "Invalid signature"⟩

/-- A valid submission for job j1 referencing study s1. -/
def reqA : InferenceRequest :=
  ⟨"j1", "s1", "ensemble", "latest", "NORMAL", [], [], none⟩

/-- A second submission reusing job id j1 with a different study. -/
def reqB : InferenceRequest :=
  ⟨"j1", "s2", "ensemble", "latest", "NORMAL", [], [], none⟩

/-- A submission naming a model absent from the registry tables. -/
def reqUnknown : InferenceRequest :=
  ⟨"j2", "s1", "unknown-model", "latest", "NORMAL", [], [], none⟩

/-- A submission with a distinct job id, used alongside `reqA`. -/
def reqC : InferenceRequest :=
  ⟨"j3", "s3", "densenet121_chex", "latest", "NORMAL", [], [], none⟩

/-- A submission carrying a callback URL. -/
def reqCb : InferenceRequest :=
  ⟨"j1", "s1", "ensemble", "latest", "NORMAL", [], [],
   some "http://cb.example/hook"⟩

/-- A job record in a terminal state, as an external worker would leave it. -/
def terminalRecord : JVal :=
  .obj [("status", .str "SUCCEEDED"), ("progress", .num 100),
        ("study_id", .str "s9"), ("model", .str "ensemble")]

/-- A server state whose store holds one terminal job record under j9. -/
def terminalState : ServerState :=
  ⟨[("job:j9", ⟨3600, terminalRecord⟩)], 0, 0, 0, []⟩

/-- A configuration with `MAX_QUEUE_SIZE` zero and no API key. -/
def cfgZero : Config := ⟨"", "secret", 0⟩

/-!
Helper lemmas: bounds on hash states, behaviour of the keyed store, and the
shape of an admitted submission.
-/

/-- Reduction to 32 bits lands below 2^32. -/
theorem w32_lt (n : Nat) : w32 n < 4294967296 := Nat.mod_lt _ (by omega)

/-- The compression function always returns a bounded state. -/
theorem shaCompress_bounded (hs : Hash8) (b : List Nat) :
    Hash8Bounded (shaCompress hs b) :=
  ⟨w32_lt _, w32_lt _, w32_lt _, w32_lt _, w32_lt _, w32_lt _, w32_lt _, w32_lt _⟩

/-- Absorbing any block list preserves boundedness. -/
theorem foldl_shaCompress_bounded (blocks : List (List Nat)) (hs : Hash8)
    (h : Hash8Bounded hs) : Hash8Bounded (blocks.foldl shaCompress hs) := by
  induction blocks generalizing hs with
  | nil => exact h
  | cons b bs ih =>
    rw [List.foldl_cons]
    exact ih (shaCompress hs b) (shaCompress_bounded hs b)

/-- The initial hash value is bounded. -/
theorem shaH0_bounded : Hash8Bounded shaH0 := by
  refine ⟨?_, ?_, ?_, ?_, ?_, ?_, ?_, ?_⟩ <;> decide

/-- SHA-256 states are bounded. -/
theorem sha256Hash_bounded (msg : List Nat) : Hash8Bounded (sha256Hash msg) :=
  foldl_shaCompress_bounded _ _ shaH0_bounded

/-- HMAC-SHA256 states are bounded. -/
theorem hmacHash_bounded (key msg : List Nat) :
    Hash8Bounded (hmacHash key msg) :=
  sha256Hash_bounded _

/-- On bounded states the finite packing is injective. -/
theorem hashTuple_inj {h1 h2 : Hash8} (b1 : Hash8Bounded h1)
    (b2 : Hash8Bounded h2) (he : hashTuple h1 = hashTuple h2) : h1 = h2 := by
  obtain ⟨l1a, l1b, l1c, l1d, l1e, l1f, l1g, l1h⟩ := b1
  obtain ⟨l2a, l2b, l2c, l2d, l2e, l2f, l2g, l2h⟩ := b2
  have ea := congrArg (fun t => t.1.val) he
  have eb := congrArg (fun t => t.2.1.val) he
  have ec := congrArg (fun t => t.2.2.1.val) he
  have ed := congrArg (fun t => t.2.2.2.1.val) he
  have ee := congrArg (fun t => t.2.2.2.2.1.val) he
  have ef := congrArg (fun t => t.2.2.2.2.2.1.val) he
  have eg := congrArg (fun t => t.2.2.2.2.2.2.1.val) he
  have eh2 := congrArg (fun t => t.2.2.2.2.2.2.2.val) he
  simp only [hashTuple] at ea eb ec ed ee ef eg eh2
  rw [Nat.mod_eq_of_lt l1a, Nat.mod_eq_of_lt l2a] at ea
  rw [Nat.mod_eq_of_lt l1b, Nat.mod_eq_of_lt l2b] at eb
  rw [Nat.mod_eq_of_lt l1c, Nat.mod_eq_of_lt l2c] at ec
  rw [Nat.mod_eq_of_lt l1d, Nat.mod_eq_of_lt l2d] at ed
  rw [Nat.mod_eq_of_lt l1e, Nat.mod_eq_of_lt l2e] at ee
  rw [Nat.mod_eq_of_lt l1f, Nat.mod_eq_of_lt l2f] at ef
  rw [Nat.mod_eq_of_lt l1g, Nat.mod_eq_of_lt l2g] at eg
  rw [Nat.mod_eq_of_lt l1h, Nat.mod_eq_of_lt l2h] at eh2
  cases h1
  cases h2
  simp only [Hash8.mk.injEq]
  exact ⟨ea, eb, ec, ed, ee, ef, eg, eh2⟩

/-- Reading back the key just written yields the new entry. -/
theorem storeGet_set_self (st : List (String × RedisEntry)) (k : String)
    (e : RedisEntry) : storeGet (storeSet st k e) k = some e := by
  simp [storeGet, storeSet]

/-- Entries surviving a deletion never match the deleted key. -/
theorem find?_filter_ne (st : List (String × RedisEntry)) (k : String) :
    (st.filter (fun p => p.1 != k)).find? (fun p => p.1 == k) = none := by
  induction st with
  | nil => rfl
  | cons p ps ih =>
    by_cases h : p.1 = k
    · simp [List.filter_cons, h, ih]
    · simp [List.filter_cons, h, ih]

/-- Reading a deleted key yields nothing. -/
theorem storeGet_del_self (st : List (String × RedisEntry)) (k : String) :
    storeGet (storeDel st k) k = none := by
  unfold storeGet storeDel
  rw [find?_filter_ne]
  rfl

/-- After a deletion no entry under the key remains. -/
theorem filter_ne_filter_eq (st : List (String × RedisEntry)) (k : String) :
    (st.filter (fun p => p.1 != k)).filter (fun p => p.1 == k) = [] := by
  induction st with
  | nil => rfl
  | cons p ps ih =>
    by_cases h : p.1 = k
    · simp [List.filter_cons, h, ih]
    · simp [List.filter_cons, h, ih]

/-- A write leaves exactly one entry under the written key. -/
theorem keyCount_set (st : List (String × RedisEntry)) (k : String)
    (e : RedisEntry) : keyCount (storeSet st k e) k = 1 := by
  unfold keyCount storeSet
  rw [List.filter_cons]
  simp [filter_ne_filter_eq]

/-- The status field of a fresh job record. -/
theorem stored_job_value_status (req : InferenceRequest) :
    jsonLookup "status" (stored_job_value req) = some (.str "QUEUED") := rfl

/-- The progress field of a fresh job record. -/
theorem stored_job_value_progress (req : InferenceRequest) :
    jsonLookup "progress" (stored_job_value req) = some (.num 0) := rfl

/-- The exact outcome of an admitted submission: QUEUED response, the record
written under `job:{job_id}` with a 3600-second time-to-live, metrics
bumped, and the initial webhook appended when a callback URL is present. -/
theorem enqueue_job_admitted (cfg : Config) (k : Option String)
    (req : InferenceRequest) (s : ServerState)
    (hauth : ¬(cfg.api_key ≠ "" ∧ k ≠ some cfg.api_key))
    (hq : s.queue_count ≤ cfg.max_queue_size) :
    enqueue_job cfg k req s =
      (.ok ⟨req.job_id, "QUEUED", 1,
         estimate_processing_time req.model req.images.length⟩,
       ⟨storeSet s.store ("job:" ++ req.job_id) ⟨3600, stored_job_value req⟩,
        s.queue_count, s.request_count + 1, s.queue_count,
        match req.callback_url with
        | some url => s.webhooks ++ [(url, webhook_payload req)]
        | none => s.webhooks⟩) := by
  unfold enqueue_job
  rw [if_neg hauth, if_neg (Nat.not_lt.mpr hq)]

/-- The status endpoint never changes the state. -/
theorem get_job_status_state (j : String) (s : ServerState) :
    (get_job_status j s).2 = s := by
  unfold get_job_status
  cases storeGet s.store ("job:" ++ j) <;> rfl

/-- Writing a QUEUED/0 record preserves the store invariant. -/
theorem storeInvariant_set {st : List (String × RedisEntry)} {k : String}
    {e : RedisEntry} (h : storeInvariant st)
    (he : jsonLookup "status" e.value = some (.str "QUEUED") ∧
          jsonLookup "progress" e.value = some (.num 0)) :
    storeInvariant (storeSet st k e) := by
  intro p hp
  simp only [storeSet] at hp
  rcases List.mem_cons.mp hp with h1 | h2
  · rw [h1]
    exact he
  · exact h p (List.mem_of_mem_filter h2)

/-- Deleting preserves the store invariant. -/
theorem storeInvariant_del {st : List (String × RedisEntry)} {k : String}
    (h : storeInvariant st) : storeInvariant (storeDel st k) :=
  fun p hp => h p (List.mem_of_mem_filter hp)

/-- Each endpoint preserves the store invariant: submission writes only
QUEUED/0 records, status reads, cancellation deletes. -/
theorem applyOp_storeInvariant (s : ServerState) (o : Op)
    (h : storeInvariant s.store) : storeInvariant (applyOp s o).store := by
  cases o with
  | submit cfg k req =>
    show storeInvariant (enqueue_job cfg k req s).2.store
    unfold enqueue_job
    by_cases h1 : cfg.api_key ≠ "" ∧ k ≠ some cfg.api_key
    · rw [if_pos h1]
      exact h
    · rw [if_neg h1]
      by_cases h2 : cfg.max_queue_size < s.queue_count
      · rw [if_pos h2]
        exact h
      · rw [if_neg h2]
        exact storeInvariant_set h ⟨rfl, rfl⟩
  | query j =>
    show storeInvariant (get_job_status j s).2.store
    rw [get_job_status_state]
    exact h
  | cancel j => exact storeInvariant_del h

/-- C10: every job record this service ever writes has status QUEUED and
progress 0; no endpoint writes RUNNING, CANCELLING, SUCCEEDED, FAILED, or
CANCELLED, so a stored record's status and progress never change between
creation and removal. -/
theorem runOps_storeInvariant (s : ServerState) (ops : List Op)
    (h : storeInvariant s.store) : storeInvariant (runOps s ops).store := by
  induction ops generalizing s with
  | nil => exact h
  | cons o os ih =>
    have step : runOps s (o :: os) = runOps (applyOp s o) os := rfl
    rw [step]
    exact ih (applyOp s o) (applyOp_storeInvariant s o h)

/-- Witness for C10: a concrete run of submissions and a cancellation from
the empty store satisfies the invariant. -/
theorem runOps_storeInvariant_witness :
    storeInvariant (runOps (initState 0)
      [Op.submit defaultConfig none reqA, Op.cancel "j1",
       Op.submit defaultConfig none reqUnknown]).store :=
  runOps_storeInvariant (initState 0) _ (by intro p hp; cases hp)

/-- C9: the ETA estimator is a pure function of model name and item count:
a per-model base time plus five seconds per item, base 30 for models not in
the table; hence deterministic and monotonically non-decreasing in the item
count. -/
theorem estimate_processing_time_spec (m : String) (n : Nat) :
    estimate_processing_time m n = base_time m + 5 * n ∧
    (∀ n2, n ≤ n2 →
      estimate_processing_time m n ≤ estimate_processing_time m n2) ∧
    (m ≠ "densenet121_chex" → m ≠ "unet_segmentation" → m ≠ "ensemble" →
      base_time m = 30) := by
  refine ⟨?_, ?_, ?_⟩
  · simp only [estimate_processing_time]
    omega
  · intro n2 hn
    simp only [estimate_processing_time]
    omega
  · intro h1 h2 h3
    simp [base_time, base_times, Ne.symm h1, Ne.symm h2, Ne.symm h3]

/-- Witness for C9 at the unknown model "unknown-model" with 2 and 5
items. -/
theorem estimate_processing_time_spec_witness :
    estimate_processing_time "unknown-model" 2 =
      base_time "unknown-model" + 5 * 2 ∧
    estimate_processing_time "unknown-model" 2 ≤
      estimate_processing_time "unknown-model" 5 ∧
    base_time "unknown-model" = 30 := by
  obtain ⟨h1, h2, h3⟩ := estimate_processing_time_spec "unknown-model" 2
  exact ⟨h1, h2 5 (by decide), h3 (by decide) (by decide) (by decide)⟩

/-- C4 counterexample: cancelling job j9, whose stored status is the
terminal SUCCEEDED, succeeds with the usual acknowledgment and deletes the
record — it neither fails with AlreadyTerminal nor leaves the record
unchanged. -/
theorem cancel_terminal_succeeds_and_deletes :
    jsonLookup "status" terminalRecord = some (.str "SUCCEEDED") ∧
    (cancel_job "j9" terminalState).1 = .ok "Job cancelled successfully" ∧
    storeGet (cancel_job "j9" terminalState).2.store "job:j9" = none :=
  ⟨rfl, rfl, rfl⟩

/-- C4 amended: the cancel endpoint never inspects job status — for every
job id and state it reports success and deletes whatever record was stored
under that id, terminal or not; no AlreadyTerminal error exists. -/
theorem cancel_job_unconditional (job_id : String) (s : ServerState) :
    (cancel_job job_id s).1 = .ok "Job cancelled successfully" ∧
    storeGet (cancel_job job_id s).2.store ("job:" ++ job_id) = none :=
  ⟨rfl, storeGet_del_self s.store ("job:" ++ job_id)⟩

/-- C1 counterexample: resubmitting job id j1 with a different study is
accepted (no DuplicateJobId) and the stored record is replaced by the
second submission's data, so the first record is altered. -/
theorem duplicate_submission_alters_record :
    (enqueue_job defaultConfig none reqB
       (enqueue_job defaultConfig none reqA (initState 0)).2).1 =
      .ok ⟨"j1", "QUEUED", 1, 60⟩ ∧
    storeGet (enqueue_job defaultConfig none reqB
       (enqueue_job defaultConfig none reqA (initState 0)).2).2.store
      "job:j1" = some ⟨3600, stored_job_value reqB⟩ ∧
    stored_job_value reqB ≠ stored_job_value reqA := by
  refine ⟨rfl, rfl, ?_⟩
  simp [stored_job_value, reqA, reqB]

/-- C1 amended: a second submission under the same job id is admitted like
any other and overwrites the stored record with its own data (resetting the
time-to-live); the store still holds exactly one record under that id. -/
theorem resubmission_overwrites (cfg : Config) (k : Option String)
    (req1 req2 : InferenceRequest) (s : ServerState)
    (hid : req1.job_id = req2.job_id)
    (hauth : ¬(cfg.api_key ≠ "" ∧ k ≠ some cfg.api_key))
    (hq : s.queue_count ≤ cfg.max_queue_size) :
    (enqueue_job cfg k req2 (enqueue_job cfg k req1 s).2).1 =
      .ok ⟨req2.job_id, "QUEUED", 1,
        estimate_processing_time req2.model req2.images.length⟩ ∧
    storeGet (enqueue_job cfg k req2 (enqueue_job cfg k req1 s).2).2.store
      ("job:" ++ req1.job_id) = some ⟨3600, stored_job_value req2⟩ ∧
    keyCount (enqueue_job cfg k req2 (enqueue_job cfg k req1 s).2).2.store
      ("job:" ++ req1.job_id) = 1 := by
  have h1 := enqueue_job_admitted cfg k req1 s hauth hq
  have hq1 : (enqueue_job cfg k req1 s).2.queue_count ≤ cfg.max_queue_size := by
    rw [h1]
    exact hq
  have h2 := enqueue_job_admitted cfg k req2 (enqueue_job cfg k req1 s).2 hauth hq1
  rw [h2, hid]
  exact ⟨rfl, storeGet_set_self _ _ _, keyCount_set _ _ _⟩

/-- Witness for the amended C1 at the concrete duplicate pair. -/
theorem resubmission_overwrites_witness :
    (enqueue_job defaultConfig none reqB
       (enqueue_job defaultConfig none reqA (initState 0)).2).1 =
      .ok ⟨"j1", "QUEUED", 1, 60⟩ ∧
    storeGet (enqueue_job defaultConfig none reqB
       (enqueue_job defaultConfig none reqA (initState 0)).2).2.store
      "job:j1" = some ⟨3600, stored_job_value reqB⟩ ∧
    keyCount (enqueue_job defaultConfig none reqB
       (enqueue_job defaultConfig none reqA (initState 0)).2).2.store
      "job:j1" = 1 :=
  resubmission_overwrites defaultConfig none reqA reqB (initState 0) rfl
    (by decide) (by decide)

/-- C2 counterexample: a submission naming the unknown model
"unknown-model" is accepted with status QUEUED and its record is persisted;
no InvalidModel rejection occurs. -/
theorem unknown_model_submission_accepted :
    (enqueue_job defaultConfig none reqUnknown (initState 0)).1 =
      .ok ⟨"j2", "QUEUED", 1, 30⟩ ∧
    storeGet (enqueue_job defaultConfig none reqUnknown (initState 0)).2.store
      "job:j2" = some ⟨3600, stored_job_value reqUnknown⟩ :=
  ⟨rfl, rfl⟩

/-- C2 amended: the service never consults a model registry — every
submission passing the API-key and queue checks is accepted with status
QUEUED and persisted, whatever its model name; an unknown model only falls
back to the default base time inside the ETA. -/
theorem enqueue_no_model_validation (cfg : Config) (k : Option String)
    (req : InferenceRequest) (s : ServerState)
    (hauth : ¬(cfg.api_key ≠ "" ∧ k ≠ some cfg.api_key))
    (hq : s.queue_count ≤ cfg.max_queue_size) :
    (enqueue_job cfg k req s).1 =
      .ok ⟨req.job_id, "QUEUED", 1,
        estimate_processing_time req.model req.images.length⟩ ∧
    storeGet (enqueue_job cfg k req s).2.store ("job:" ++ req.job_id) =
      some ⟨3600, stored_job_value req⟩ := by
  rw [enqueue_job_admitted cfg k req s hauth hq]
  exact ⟨rfl, storeGet_set_self _ _ _⟩

/-- Witness for the amended C2 at another unknown model name. -/
theorem enqueue_no_model_validation_witness :
    (enqueue_job defaultConfig none
       ⟨"j8", "s8", "foo-model", "latest", "NORMAL", [], [], none⟩
       (initState 0)).1 = .ok ⟨"j8", "QUEUED", 1, 30⟩ ∧
    storeGet (enqueue_job defaultConfig none
       ⟨"j8", "s8", "foo-model", "latest", "NORMAL", [], [], none⟩
       (initState 0)).2.store "job:j8" =
      some ⟨3600, stored_job_value
        ⟨"j8", "s8", "foo-model", "latest", "NORMAL", [], [], none⟩⟩ :=
  enqueue_no_model_validation defaultConfig none
    ⟨"j8", "s8", "foo-model", "latest", "NORMAL", [], [], none⟩
    (initState 0) (by decide) (by decide)

/-- C3 counterexample: with max_queue_size 0 and an empty external queue,
two successive submissions — more than max_queue_size — both succeed;
no QueueFull appears because admission never increments the counter it
checks. -/
theorem sequential_submissions_no_queue_full :
    (enqueue_job cfgZero none reqA (initState 0)).1 =
      .ok ⟨"j1", "QUEUED", 1, 60⟩ ∧
    (enqueue_job cfgZero none reqC
       (enqueue_job cfgZero none reqA (initState 0)).2).1 =
      .ok ⟨"j3", "QUEUED", 1, 30⟩ :=
  ⟨rfl, rfl⟩

/-- C3 amended: submission is rejected with the 503 queue-full error
exactly when the external queue count strictly exceeds max_queue_size, and
the state is then unchanged; admission itself never changes that count, so
it is not the counter an admitted job increments. -/
theorem queue_full_behavior (cfg : Config) (k : Option String)
    (req : InferenceRequest) (s : ServerState)
    (hauth : ¬(cfg.api_key ≠ "" ∧ k ≠ some cfg.api_key)) :
    (cfg.max_queue_size < s.queue_count →
      enqueue_job cfg k req s =
        (.error ⟨503, "Queue is full, please try again later"⟩, s)) ∧
    (enqueue_job cfg k req s).2.queue_count = s.queue_count := by
  constructor
  · intro hlt
    unfold enqueue_job
    rw [if_neg hauth, if_pos hlt]
  · unfold enqueue_job
    by_cases h2 : cfg.max_queue_size < s.queue_count
    · rw [if_neg hauth, if_pos h2]
    · rw [if_neg hauth, if_neg h2]

/-- Witness for the amended C3: the spec's own scenario — max_queue_size 0
with one job already queued — is rejected with the queue-full error. -/
theorem queue_full_behavior_witness :
    enqueue_job cfgZero none reqA (initState 1) =
      (.error ⟨503, "Queue is full, please try again later"⟩, initState 1) ∧
    (enqueue_job cfgZero none reqA (initState 1)).2.queue_count = 1 := by
  have h := queue_full_behavior cfgZero none reqA (initState 1) (by decide)
  exact ⟨h.1 (by decide), h.2⟩

/-- C5 counterexample: after a valid submission the status response is the
stored record, which has status QUEUED but contains no job_id field at all,
so the response's job_id cannot equal the submitted one. -/
theorem status_response_lacks_job_id :
    (enqueue_job defaultConfig none reqA (initState 0)).1 =
      .ok ⟨"j1", "QUEUED", 1, 60⟩ ∧
    (get_job_status "j1"
       (enqueue_job defaultConfig none reqA (initState 0)).2).1 =
      .ok (stored_job_value reqA) ∧
    jsonLookup "status" (stored_job_value reqA) = some (.str "QUEUED") ∧
    jsonLookup "job_id" (stored_job_value reqA) = none :=
  ⟨rfl, rfl, rfl, rfl⟩

/-- C5 amended: every admitted submission answers QUEUED with its job id
echoed in the submit response, and an immediate status query under that id
returns the stored record with status QUEUED — but the status response
carries no job_id field of its own; the id round-trips only as the lookup
key. -/
theorem submit_then_status_queued (cfg : Config) (k : Option String)
    (req : InferenceRequest) (s : ServerState)
    (hauth : ¬(cfg.api_key ≠ "" ∧ k ≠ some cfg.api_key))
    (hq : s.queue_count ≤ cfg.max_queue_size) :
    (enqueue_job cfg k req s).1 =
      .ok ⟨req.job_id, "QUEUED", 1,
        estimate_processing_time req.model req.images.length⟩ ∧
    (get_job_status req.job_id (enqueue_job cfg k req s).2).1 =
      .ok (stored_job_value req) ∧
    jsonLookup "status" (stored_job_value req) = some (.str "QUEUED") ∧
    jsonLookup "job_id" (stored_job_value req) = none := by
  rw [enqueue_job_admitted cfg k req s hauth hq]
  have hg := storeGet_set_self s.store ("job:" ++ req.job_id)
    (⟨3600, stored_job_value req⟩ : RedisEntry)
  refine ⟨rfl, ?_, rfl, rfl⟩
  simp [get_job_status, hg]

/-- Witness for the amended C5 at the concrete submission of job j1. -/
theorem submit_then_status_queued_witness :
    (enqueue_job defaultConfig none reqC (initState 0)).1 =
      .ok ⟨"j3", "QUEUED", 1, 30⟩ ∧
    (get_job_status "j3"
       (enqueue_job defaultConfig none reqC (initState 0)).2).1 =
      .ok (stored_job_value reqC) ∧
    jsonLookup "status" (stored_job_value reqC) = some (.str "QUEUED") ∧
    jsonLookup "job_id" (stored_job_value reqC) = none :=
  submit_then_status_queued defaultConfig none reqC (initState 0)
    (by decide) (by decide)

/-- C6 counterexample: a freshly created record is stored with the
3600-second time-to-live although its status QUEUED is non-terminal, and a
cancel deletes it outright while still non-terminal. -/
theorem nonterminal_record_expiry_and_deletion :
    storeGet (enqueue_job defaultConfig none reqA (initState 0)).2.store
      "job:j1" = some ⟨3600, stored_job_value reqA⟩ ∧
    jsonLookup "status" (stored_job_value reqA) = some (.str "QUEUED") ∧
    storeGet (cancel_job "j1"
       (enqueue_job defaultConfig none reqA (initState 0)).2).2.store
      "job:j1" = none :=
  ⟨rfl, rfl, rfl⟩

/-- C6 amended: the 3600-second time-to-live is attached when the record is
created, while its status is the non-terminal QUEUED, and cancellation
deletes a record whatever its status; no retention tied to terminal states
exists. -/
theorem ttl_set_at_creation (cfg : Config) (k : Option String)
    (req : InferenceRequest) (s : ServerState)
    (hauth : ¬(cfg.api_key ≠ "" ∧ k ≠ some cfg.api_key))
    (hq : s.queue_count ≤ cfg.max_queue_size) :
    storeGet (enqueue_job cfg k req s).2.store ("job:" ++ req.job_id) =
      some ⟨3600, stored_job_value req⟩ ∧
    jsonLookup "status" (stored_job_value req) = some (.str "QUEUED") ∧
    (∀ (jid : String) (s2 : ServerState),
      storeGet (cancel_job jid s2).2.store ("job:" ++ jid) = none) := by
  rw [enqueue_job_admitted cfg k req s hauth hq]
  exact ⟨storeGet_set_self _ _ _, rfl, fun jid s2 => storeGet_del_self _ _⟩

/-- Witness for the amended C6 at the concrete submission of job j1. -/
theorem ttl_set_at_creation_witness :
    storeGet (enqueue_job defaultConfig none reqA (initState 0)).2.store
      "job:j1" = some ⟨3600, stored_job_value reqA⟩ ∧
    jsonLookup "status" (stored_job_value reqA) = some (.str "QUEUED") ∧
    (∀ (jid : String) (s2 : ServerState),
      storeGet (cancel_job jid s2).2.store ("job:" ++ jid) = none) :=
  ttl_set_at_creation defaultConfig none reqA (initState 0)
    (by decide) (by decide)

/-- C8 counterexample: the single webhook sent for a submission carries
job_id, status, and progress but no sequence field at all. -/
theorem webhook_payload_lacks_sequence :
    (enqueue_job defaultConfig none reqCb (initState 0)).2.webhooks =
      [("http://cb.example/hook", webhook_payload reqCb)] ∧
    jsonLookup "job_id" (webhook_payload reqCb) = some (.str "j1") ∧
    jsonLookup "status" (webhook_payload reqCb) = some (.str "QUEUED") ∧
    jsonLookup "progress" (webhook_payload reqCb) = some (.num 0) ∧
    jsonLookup "sequence" (webhook_payload reqCb) = none :=
  ⟨rfl, rfl, rfl, rfl, rfl⟩

/-- C8 amended: for a submission carrying a callback URL exactly one
webhook is scheduled, whose payload holds job_id, status QUEUED, and
progress 0 — and no sequence number; no later payloads exist for the job in
this service. -/
theorem webhook_payload_fields (cfg : Config) (k : Option String)
    (req : InferenceRequest) (s : ServerState) (url : String)
    (hauth : ¬(cfg.api_key ≠ "" ∧ k ≠ some cfg.api_key))
    (hq : s.queue_count ≤ cfg.max_queue_size)
    (hcb : req.callback_url = some url) :
    (enqueue_job cfg k req s).2.webhooks =
      s.webhooks ++ [(url, webhook_payload req)] ∧
    jsonLookup "job_id" (webhook_payload req) = some (.str req.job_id) ∧
    jsonLookup "status" (webhook_payload req) = some (.str "QUEUED") ∧
    jsonLookup "progress" (webhook_payload req) = some (.num 0) ∧
    jsonLookup "sequence" (webhook_payload req) = none := by
  rw [enqueue_job_admitted cfg k req s hauth hq]
  refine ⟨?_, rfl, rfl, rfl, rfl⟩
  simp [hcb]

/-- Witness for the amended C8 at the concrete callback submission. -/
theorem webhook_payload_fields_witness :
    (enqueue_job defaultConfig none reqCb (initState 0)).2.webhooks =
      [] ++ [("http://cb.example/hook", webhook_payload reqCb)] ∧
    jsonLookup "job_id" (webhook_payload reqCb) = some (.str "j1") ∧
    jsonLookup "status" (webhook_payload reqCb) = some (.str "QUEUED") ∧
    jsonLookup "progress" (webhook_payload reqCb) = some (.num 0) ∧
    jsonLookup "sequence" (webhook_payload reqCb) = none :=
  webhook_payload_fields defaultConfig none reqCb (initState 0)
    "http://cb.example/hook" (by decide) (by decide) rfl

/-- The letter a passes through JSON escaping unchanged. -/
theorem escChar_a : escChar 'a' = ['a'] := rfl

/-- A run of letters a is its own JSON escape. -/
theorem flatMap_escChar_replicate (n : Nat) :
    (List.replicate n 'a').flatMap escChar = List.replicate n 'a' := by
  induction n with
  | zero => rfl
  | succ m ih => simp [List.replicate_succ, escChar_a, ih]

/-- Length of the probe string. -/
theorem replicate_a_string_length (n : Nat) :
    (String.mk (List.replicate n 'a')).length = n := by
  show (List.replicate n 'a').length = n
  simp

/-- Serialization length of the probe payload: the quotes plus the run. -/
theorem dumps_tamperProbe_length (n : Nat) :
    (json_dumps (tamperProbe n)).length = n + 2 := by
  show (quoteStr (String.mk (List.replicate n 'a'))).length = n + 2
  unfold quoteStr
  rw [show (String.mk (List.replicate n 'a')).data = List.replicate n 'a'
      from rfl]
  rw [flatMap_escChar_replicate]
  rw [String.length_append, String.length_append]
  rw [replicate_a_string_length]
  have hq : ("\"" : String).length = 1 := rfl
  omega

/-- Distinct probe payloads serialize to different strings. -/
theorem tamperProbe_dumps_ne {m n : Nat} (h : m ≠ n) :
    json_dumps (tamperProbe m) ≠ json_dumps (tamperProbe n) := by
  intro he
  apply h
  have hlen := congrArg String.length he
  rw [dumps_tamperProbe_length, dumps_tamperProbe_length] at hlen
  omega

/-- Distinct probe payloads are distinct values. -/
theorem tamperProbe_ne {m n : Nat} (h : m ≠ n) :
    tamperProbe m ≠ tamperProbe n := by
  intro he
  apply h
  simp only [tamperProbe, JVal.str.injEq] at he
  have hlen := congrArg String.length he
  rw [replicate_a_string_length, replicate_a_string_length] at hlen
  exact hlen

/-- C7 counterexample: the claim's tamper-detection half is false — the
signature space is finite (eight 32-bit words) while payloads are not, so
by pigeonhole two payloads with different serialized bytes share an
HMAC-SHA256 signature, and the receiver accepts the second against the
first's signature instead of failing with the invalid-signature error. -/
theorem tamper_detection_claim_false : ¬ tamper_detection_claim := by
  intro hcl
  obtain ⟨m, n, hmn, hFeq⟩ :=
    Finite.exists_ne_map_eq_of_infinite
      (fun j : Nat => hashTuple (hmacHash (strBytes "secret")
        (strBytes (json_dumps (tamperProbe j)))))
  have hH := hashTuple_inj (hmacHash_bounded _ _) (hmacHash_bounded _ _) hFeq
  have hsig : webhook_signature "secret" (tamperProbe m) =
      webhook_signature "secret" (tamperProbe n) := by
    unfold webhook_signature hmacSha256
    rw [hH]
  have hok : receive_webhook "secret" (tamperProbe n)
      (some (webhook_signature "secret" (tamperProbe m))) =
      .ok (.obj [("status", .str "received")]) := by
    unfold receive_webhook
    rw [if_pos (by decide : ("secret" : String) ≠ "")]
    simp only [Option.getD_some]
    rw [if_pos hsig]
  have hbad := hcl (tamperProbe m) (tamperProbe n) (tamperProbe_dumps_ne hmn)
  rw [hok] at hbad
  exact Except.noConfusion hbad

/-- C7 amended: a payload signed by the sender verifies at the receiver
under the same secret and serialization, and a received payload is rejected
with the invalid-signature error whenever its recomputed HMAC-SHA256
signature differs from the transmitted one — so tampering is detected
except in the event of an HMAC collision. -/
theorem webhook_signature_verifies (secret url : String) (p q : JVal) :
    receive_webhook secret (send_webhook secret url p).payload
      (some (send_webhook secret url p).x_signature) =
      .ok (.obj [("status", .str "received")]) ∧
    (secret ≠ "" →
      webhook_signature secret q ≠ webhook_signature secret p →
      receive_webhook secret q (some (webhook_signature secret p)) =
        .error ⟨401, "Invalid signature"⟩) := by
  constructor
  · by_cases hs : secret = ""
    · simp [receive_webhook, send_webhook, hs]
    · simp [receive_webhook, send_webhook, hs]
  · intro hs hne
    unfold receive_webhook
    rw [if_pos hs]
    simp only [Option.getD_some]
    rw [if_neg (Ne.symm hne)]

set_option maxRecDepth 100000 in
/-- Witness for the amended C7: the payload 0 signed with the default
secret verifies, and the payload 1 — whose signature concretely differs —
is rejected against 0's signature. -/
theorem webhook_signature_verifies_witness :
    receive_webhook "secret" (send_webhook "secret" "u" (JVal.num 0)).payload
      (some (send_webhook "secret" "u" (JVal.num 0)).x_signature) =
      .ok (.obj [("status", .str "received")]) ∧
    receive_webhook "secret" (JVal.num 1)
      (some (webhook_signature "secret" (JVal.num 0))) =
      .error ⟨401, "Invalid signature"⟩ :=
  ⟨(webhook_signature_verifies "secret" "u" (JVal.num 0) (JVal.num 1)).1,
   (webhook_signature_verifies "secret" "u" (JVal.num 0) (JVal.num 1)).2
     (by decide) (by decide)⟩
